import Mathlib

/-!
Verification of the serverless trigger layer of a social-networking app
(`index.js`: Firebase Cloud Functions) together with the client follow flow
(`OtherProfileScreen.js`).  The functions are shallowly embedded: each
handler is a pure Lean function on an explicit state, I/O failure points and
interleavings are made explicit parameters where a claim is about them.
-/

namespace RiseHood

/-! ## Push payloads and the push-notification helper (`sendPushNotification`) -/

/-- The `data` map attached to a push message (`type`, plus the optional
`chatId`/`senderId`/`amount` fields the two senders use). -/
structure PushData where
  dtype : String
  chatId : Option String := none
  senderId : Option String := none
  amount : Option Int := none
  deriving Repr, DecidableEq

/-- The message object POSTed to the Expo push gateway.  The `to` field of
the source is spelled `toTok` here because `to` is reserved in Lean. -/
structure PushMsg where
  toTok : String
  sound : String
  title : String
  body : String
  data : PushData
  deriving Repr, DecidableEq

/-- Possible outcomes of the single outbound request in
`sendPushNotification`: the `fetch` itself may throw, `response.json()` may
throw, or a receipt (success or error) is parsed. -/
inductive GatewayOutcome where
  | networkError (e : String)
  | badJson (e : String)
  | receipt (ok : Bool) (bodyText : String)
  deriving Repr, DecidableEq

/-- The body of the `try` block of `sendPushNotification`: performs the
request and parses the JSON; either of the two awaits may raise. -/
def attemptPush (_msg : PushMsg) (outcome : GatewayOutcome) :
    Except String String :=
  match outcome with
  | .networkError e => .error e
  | .badJson e => .error e
  | .receipt _ bodyText => .ok ("Push notification sent: " ++ bodyText)

/-- `sendPushNotification`: the whole `try` body is wrapped in a
`catch` that only logs, so the function completes normally with a log line
whatever the gateway did. The returned `Except` records whether an error
escapes to the caller. -/
def sendPushNotification (msg : PushMsg) (outcome : GatewayOutcome) :
    Except String String :=
  match attemptPush msg outcome with
  | .ok log => .ok log
  | .error e => .ok ("Error sending push notification: " ++ e)

/-! ## Message-notification relay (`sendMessageNotification`) -/

/-- The recipient-relevant fields of a user document read by the relay. -/
structure RelayUser where
  pushToken : Option String
  notifications : Bool
  deriving Repr, DecidableEq

/-- The fields of a newly created message document used by the relay. -/
structure MsgData where
  senderId : String
  senderName : Option String
  text : String
  deriving Repr, DecidableEq

/-- The chat document as read by the relay (participant ids). -/
structure RelayChat where
  participants : List String
  deriving Repr, DecidableEq

/-- `sendMessageNotification` for one message-creation event: resolves the
chat, the non-sender recipient and the recipient document, gates on push
token and the `settings.notifications` preference, and returns the push
message it dispatches (`none` = no dispatch). -/
def sendMessageNotification (chatDoc : Option RelayChat) (chatId : String)
    (msg : MsgData) (userDoc : String → Option RelayUser) : Option PushMsg :=
  match chatDoc with
  | none => none
  | some chat =>
    match chat.participants.find? (fun id => id ≠ msg.senderId) with
    | none => none
    | some recipientId =>
      match userDoc recipientId with
      | none => none
      | some recipient =>
        match recipient.pushToken with
        | none => none
        | some token =>
          if recipient.notifications then
            some
              { toTok := token
                sound := "default"
                title := msg.senderName.getD "New Message"
                body :=
                  if msg.text.length > 50 then msg.text.take 50 ++ "..."
                  else msg.text
                data :=
                  { dtype := "message", chatId := some chatId
                    senderId := some msg.senderId } }
          else none

/-! ## Reward issuer (`checkFollowerReward`) -/

/-- The `settings/rewardRule` configuration document. -/
structure RewardRule where
  followerThreshold : Int
  rewardAmount : Int
  deriving Repr, DecidableEq

/-- The fields of the target user document read and written by
`checkFollowerReward`. -/
structure RewardUser where
  followersCount : Int
  rewardClaimed : Bool
  walletBalance : Int
  pushToken : Option String
  deriving Repr, DecidableEq

/-- A document of the `users/{userId}/transactions` subcollection. -/
structure Txn where
  ttype : String
  amount : Int
  description : String
  deriving Repr, DecidableEq

/-- The slice of the document store touched by one `checkFollowerReward`
invocation for a fixed `userId`, plus the outbox of push messages actually
handed to `sendPushNotification`. -/
structure RewardState where
  user : Option RewardUser
  transactions : List Txn
  settingsDoc : Option RewardRule
  outbox : List PushMsg
  deriving Repr, DecidableEq

/-- Threshold resolution: `settingsDoc.exists ? followerThreshold : 5000`. -/
def thresholdOf (s : RewardState) : Int :=
  match s.settingsDoc with
  | some st => st.followerThreshold
  | none => 5000

/-- The transaction record appended by the reward grant; the amount is the
hard-coded constant `1000` of the source, not a configuration read. -/
def rewardTxn (threshold : Int) : Txn :=
  { ttype := "reward", amount := 1000
    description :=
      "Milestone reward for reaching " ++ toString threshold ++ " followers" }

/-- The push message dispatched after a grant. -/
def rewardPush (token : String) (threshold : Int) : PushMsg :=
  { toTok := token, sound := "default", title := "Congratulations! 🎉"
    body := "You\x27ve earned ₹1000 for reaching " ++ toString threshold
      ++ " followers!"
    data := { dtype := "reward", amount := some 1000 } }

/-- First write of the grant: one `update` call setting
`wallet.balance: increment(1000)` and `rewardClaimed: true`.  The increment
applies to the *current* stored balance, whatever was observed at read time. -/
def applyWalletUpdate (s : RewardState) : RewardState :=
  match s.user with
  | some u =>
    { s with
        user := some
          { u with walletBalance := u.walletBalance + 1000
                   rewardClaimed := true } }
  | none => s

/-- Second write of the grant: `transactions.add` of the reward record. -/
def applyTxnAdd (threshold : Int) (s : RewardState) : RewardState :=
  { s with transactions := s.transactions ++ [rewardTxn threshold] }

/-- Third step of the grant: dispatch the push message if the *observed*
user data carried a push token. -/
def applyNotify (observedToken : Option String) (threshold : Int)
    (s : RewardState) : RewardState :=
  match observedToken with
  | some token => { s with outbox := s.outbox ++ [rewardPush token threshold] }
  | none => s

/-- Points at which one of the sequential awaited writes of the grant can
raise (the surrounding `catch` then stops the remaining steps). -/
inductive RewardFail where
  | beforeWallet
  | afterWallet
  | afterTxn
  deriving Repr, DecidableEq

/-- The write phase of `checkFollowerReward`, parameterised by the user data
`u` *observed in the read phase* and the threshold: if the guard
`followersCount >= threshold && !rewardClaimed` holds on the observation, the
three writes run in sequence, stopping early at the injected failure point. -/
def checkFollowerRewardWrites (u : RewardUser) (threshold : Int)
    (fail : Option RewardFail) (s : RewardState) : RewardState :=
  if u.followersCount ≥ threshold ∧ u.rewardClaimed = false then
    match fail with
    | some .beforeWallet => s
    | some .afterWallet => applyWalletUpdate s
    | some .afterTxn => applyTxnAdd threshold (applyWalletUpdate s)
    | none => applyNotify u.pushToken threshold
        (applyTxnAdd threshold (applyWalletUpdate s))
  else s

/-- One full `checkFollowerReward` invocation running alone: read the user
document and the threshold, then perform the write phase on the same state. -/
def checkFollowerReward (fail : Option RewardFail) (s : RewardState) :
    RewardState :=
  match s.user with
  | none => s
  | some u => checkFollowerRewardWrites u (thresholdOf s) fail s

/-! ## Follower-count reconciler (`updateFollowerCounts`) -/

/-- A full user document (the fields created at sign-up in
`AuthContext.js`), used to state that the reconciler touches nothing but the
two counters. -/
structure UserDoc where
  username : String
  bio : String
  followersCount : Int
  followingCount : Int
  postsCount : Int
  walletBalance : Int
  rewardClaimed : Bool
  pushToken : Option String
  notifications : Bool
  deriving Repr, DecidableEq

/-- The `users` collection, keyed by uid. -/
abbrev UserStore := List (String × UserDoc)

/-- Document lookup (`users/{id}`), `none` when the document is absent. -/
def getUser : UserStore → String → Option UserDoc
  | [], _ => none
  | p :: t, id => if p.1 = id then some p.2 else getUser t id

/-- Apply an in-place update to the document at `id` (no effect on other
documents; no effect at all if the document is absent). -/
def adjustUser : UserStore → String → (UserDoc → UserDoc) → UserStore
  | [], _, _ => []
  | p :: t, id, f =>
    (if p.1 = id then (p.1, f p.2) else p) :: adjustUser t id f

/-- `updateFollowerCounts` for one `onWrite` event on
`users/{userId}/followers/{followerId}`: a creation event increments the two
counters in one batch, a deletion event decrements them; a Firestore batch
whose `update` targets a missing document fails atomically, leaving the
store unchanged. -/
def bumpFollowers (d : Int) (u : UserDoc) : UserDoc :=
  { u with followersCount := u.followersCount + d }

def bumpFollowing (d : Int) (u : UserDoc) : UserDoc :=
  { u with followingCount := u.followingCount + d }

def updateFollowerCounts (userId followerId : String)
    (beforeExists afterExists : Bool) (s : UserStore) : UserStore :=
  if afterExists ∧ ¬ beforeExists then
    match getUser s userId, getUser s followerId with
    | some _, some _ =>
      adjustUser (adjustUser s userId (bumpFollowers 1)) followerId
        (bumpFollowing 1)
    | _, _ => s
  else if ¬ afterExists ∧ beforeExists then
    match getUser s userId, getUser s followerId with
    | some _, some _ =>
      adjustUser (adjustUser s userId (bumpFollowers (-1))) followerId
        (bumpFollowing (-1))
    | _, _ => s
  else s

/-- A user document with its two follow counters blanked, to state that a
mutation changed nothing else. -/
def clearCounts (u : UserDoc) : UserDoc :=
  { u with followersCount := 0, followingCount := 0 }

/-! ## Client follow flow (`handleFollow`) composed with the reconciler -/

/-- The state of one ordered user pair (A follows B): existence of the two
edge documents `users/A/following/B` and `users/B/followers/A`, and the two
derived counters `followingCount(A)` and `followersCount(B)`. -/
structure PairWorld where
  followingAB : Bool
  followersBA : Bool
  followingCountA : Int
  followersCountB : Int
  deriving Repr, DecidableEq

/-- Number of extant `followers[B]` edge documents for the pair. -/
def followersEdges (w : PairWorld) : Int := if w.followersBA then 1 else 0

/-- Number of extant `following[A]` edge documents for the pair. -/
def followingEdges (w : PairWorld) : Int := if w.followingAB then 1 else 0

/-- The triggered `updateFollowerCounts` reaction to one write event on
`users/B/followers/A`, restricted to the pair: a creation increments both
pair counters, a deletion decrements them, an overwrite of an existing
document is neither and is a no-op. -/
def pairReconciler (beforeExists afterExists : Bool) (w : PairWorld) :
    PairWorld :=
  if afterExists ∧ ¬ beforeExists then
    { w with followersCountB := w.followersCountB + 1
             followingCountA := w.followingCountA + 1 }
  else if ¬ afterExists ∧ beforeExists then
    { w with followersCountB := w.followersCountB - 1
             followingCountA := w.followingCountA - 1 }
  else w

/-- The follow branch of `handleFollow` (`OtherProfileScreen.js`): `setDoc`
both edge documents, then the client itself increments `followingCount(A)`
and `followersCount(B)`; the `followers` write fires the reconciler once
(the logical event processed exactly once). -/
def clientFollow (w : PairWorld) : PairWorld :=
  let beforeFollowers := w.followersBA
  let w1 := { w with
    followingAB := true
    followersBA := true
    followingCountA := w.followingCountA + 1
    followersCountB := w.followersCountB + 1 }
  pairReconciler beforeFollowers true w1

/-- The unfollow branch of `handleFollow`: `deleteDoc` both edge documents,
then the client decrements both counters; the `followers` delete fires the
reconciler once. -/
def clientUnfollow (w : PairWorld) : PairWorld :=
  let beforeFollowers := w.followersBA
  let w1 := { w with
    followingAB := false
    followersBA := false
    followingCountA := w.followingCountA - 1
    followersCountB := w.followersCountB - 1 }
  pairReconciler beforeFollowers false w1

/-- One press of the follow button: `handleFollow` branches on the client's
`isFollowing` state, which mirrors the existence of `users/A/following/B`. -/
def handleFollow (w : PairWorld) : PairWorld :=
  if w.followingAB then clientUnfollow w else clientFollow w

/-! ## Account purge (`deleteUserAccount`) -/

/-- A post document with its owner. -/
structure PostDoc where
  pid : String
  userId : String
  deriving Repr, DecidableEq

/-- A comment document (in the `comments` collection group) with its owner. -/
structure CommentDoc where
  cdid : String
  postId : String
  userId : String
  deriving Repr, DecidableEq

/-- A message stored under a chat. -/
structure MessageRec where
  senderId : String
  text : String
  deriving Repr, DecidableEq

/-- A chat document together with its `messages` subcollection. -/
structure ChatRec where
  cid : String
  participants : List String
  messages : List MessageRec
  deriving Repr, DecidableEq

/-- Everything `deleteUserAccount` can touch: the document collections, the
storage bucket (object paths), and the set of authentication credentials. -/
structure World where
  users : UserStore
  posts : List PostDoc
  comments : List CommentDoc
  chats : List ChatRec
  followingEdges : List (String × String)
  followerEdges : List (String × String)
  transactions : List (String × Txn)
  storageObjects : List String
  authUsers : List String
  deriving Repr, DecidableEq

/-- Per-chat step of the purge batch, for a chat returned by the
`array-contains userId` query: a sole-participant chat is deleted, otherwise
`arrayRemove(userId)` drops the user from `participants` and the document
(and its message history) stays. Chats not containing the user are
untouched. -/
def purgeChat (uid : String) (c : ChatRec) : Option ChatRec :=
  if uid ∈ c.participants then
    if c.participants.length = 1 then none
    else some { c with participants := c.participants.filter (fun x => x != uid) }
  else some c

/-- The single batched write of `deleteUserAccount`: deletes the profile
document, the user's posts, the user's comments across all posts, handles
every chat containing the user, deletes the user's own `following` and
`followers` subcollections and the user's transactions — all committed
atomically. -/
def purgeDocs (uid : String) (w : World) : World :=
  { w with
      users := w.users.filter (fun p => p.1 != uid)
      posts := w.posts.filter (fun p => p.userId != uid)
      comments := w.comments.filter (fun c => c.userId != uid)
      chats := w.chats.filterMap (purgeChat uid)
      followingEdges := w.followingEdges.filter (fun e => e.1 != uid)
      followerEdges := w.followerEdges.filter (fun e => e.1 != uid)
      transactions := w.transactions.filter (fun t => t.1 != uid) }

/-- `bucket.deleteFiles({prefix: users/{uid}/})`. -/
def purgeStorage (uid : String) (w : World) : World :=
  { w with
      storageObjects :=
        w.storageObjects.filter
          (fun o => !(("users/" ++ uid ++ "/").isPrefixOf o)) }

/-- `admin.auth().deleteUser(uid)`. -/
def purgeAuth (uid : String) (w : World) : World :=
  { w with authUsers := w.authUsers.filter (fun a => a != uid) }

/-- Result of the callable function: either the `{success: true}` payload or
a thrown `HttpsError` carrying its code. -/
inductive CallResult where
  | success
  | error (code : String)
  deriving Repr, DecidableEq

/-- Awaited steps of `deleteUserAccount` at which the platform can raise
(the `catch` then rethrows a generic error): before the batch commits, at
the storage sweep, or at the credential deletion. -/
inductive PurgeFail where
  | beforeCommit
  | storage
  | authDelete
  deriving Repr, DecidableEq

/-- `deleteUserAccount`: an unauthenticated context raises
`unauthenticated` before any read or write; otherwise the target uid is
taken from `context.auth.uid` (the `data` argument is never consulted), the
batch, the storage sweep and the credential deletion run in order, and any
raise inside the `try` surfaces as the generic `internal` error with the
effects that had already committed left in place. -/
def deleteUserAccount (_dataArg : Option String) (auth : Option String)
    (fail : Option PurgeFail) (w : World) : World × CallResult :=
  match auth with
  | none => (w, .error "unauthenticated")
  | some uid =>
    match fail with
    | some .beforeCommit => (w, .error "internal")
    | some .storage => (purgeDocs uid w, .error "internal")
    | some .authDelete => (purgeStorage uid (purgeDocs uid w), .error "internal")
    | none => (purgeAuth uid (purgeStorage uid (purgeDocs uid w)), .success)

/-! ## Store lemmas -/

theorem getUser_adjustUser (s : UserStore) (a : String) (f : UserDoc → UserDoc)
    (id : String) :
    getUser (adjustUser s a f) id =
      if id = a then (getUser s a).map f else getUser s id := by
  induction s with
  | nil => by_cases h : id = a <;> simp [getUser, adjustUser, h]
  | cons p t ih =>
    by_cases hpa : p.1 = a
    · by_cases hia : id = a
      · simp [getUser, adjustUser, hpa, hia]
      · have hpi : ¬ (p.1 = id) := fun hcon => hia (hcon ▸ hpa)
        have hai : ¬ (a = id) := fun hcon => hia hcon.symm
        simpa [getUser, adjustUser, hpa, hpi, hia, hai] using ih
    · by_cases hip : p.1 = id
      · have hia : ¬ (id = a) := fun hcon => hpa (hip.trans hcon)
        simp [getUser, adjustUser, hpa, hip, hia]
      · simpa [getUser, adjustUser, hpa, hip] using ih

theorem getUser_adjust2 (s : UserStore) (a b : String)
    (g h : UserDoc → UserDoc) (ua ub : UserDoc)
    (ha : getUser s a = some ua) (hb : getUser s b = some ub) (id : String) :
    getUser (adjustUser (adjustUser s a g) b h) id =
      if id = b ∧ b = a then some (h (g ua))
      else if id = b then some (h ub)
      else if id = a then some (g ua)
      else getUser s id := by
  by_cases h1 : id = b <;> by_cases h2 : b = a <;> by_cases h3 : id = a <;>
    simp_all [getUser_adjustUser]

/-- C3: on a creation event for edge `followers/{userId}/{followerId}`,
`updateFollowerCounts` increments `userId`'s `followersCount` by exactly 1
and `followerId`'s `followingCount` by exactly 1 within one atomic batch
write; on a deletion event it decrements both by exactly 1; no other field
of either user document (and no other document) is modified. -/
theorem updateFollowerCounts_spec (userId followerId : String) (s : UserStore)
    (u f : UserDoc) (hu : getUser s userId = some u)
    (hf : getUser s followerId = some f) :
    ((getUser (updateFollowerCounts userId followerId false true s)
        userId).map UserDoc.followersCount = some (u.followersCount + 1)
     ∧ (getUser (updateFollowerCounts userId followerId false true s)
          followerId).map UserDoc.followingCount = some (f.followingCount + 1)
     ∧ (∀ id, (getUser (updateFollowerCounts userId followerId false true s)
          id).map clearCounts = (getUser s id).map clearCounts)
     ∧ (∀ id, id ≠ userId → id ≠ followerId →
         getUser (updateFollowerCounts userId followerId false true s) id =
           getUser s id)
     ∧ (userId ≠ followerId →
         (getUser (updateFollowerCounts userId followerId false true s)
            userId).map UserDoc.followingCount = some u.followingCount
         ∧ (getUser (updateFollowerCounts userId followerId false true s)
              followerId).map UserDoc.followersCount = some f.followersCount))
    ∧ ((getUser (updateFollowerCounts userId followerId true false s)
        userId).map UserDoc.followersCount = some (u.followersCount - 1)
     ∧ (getUser (updateFollowerCounts userId followerId true false s)
          followerId).map UserDoc.followingCount = some (f.followingCount - 1)
     ∧ (∀ id, (getUser (updateFollowerCounts userId followerId true false s)
          id).map clearCounts = (getUser s id).map clearCounts)
     ∧ (∀ id, id ≠ userId → id ≠ followerId →
         getUser (updateFollowerCounts userId followerId true false s) id =
           getUser s id)
     ∧ (userId ≠ followerId →
         (getUser (updateFollowerCounts userId followerId true false s)
            userId).map UserDoc.followingCount = some u.followingCount
         ∧ (getUser (updateFollowerCounts userId followerId true false s)
              followerId).map UserDoc.followersCount = some f.followersCount)) := by
  have hc : updateFollowerCounts userId followerId false true s =
      adjustUser (adjustUser s userId (bumpFollowers 1)) followerId
        (bumpFollowing 1) := by
    simp [updateFollowerCounts, hu, hf]
  have hd : updateFollowerCounts userId followerId true false s =
      adjustUser (adjustUser s userId (bumpFollowers (-1))) followerId
        (bumpFollowing (-1)) := by
    simp [updateFollowerCounts, hu, hf]
  have huf : userId = followerId → u = f := by
    intro h
    have h2 := hu
    rw [h, hf] at h2
    exact (Option.some.inj h2).symm
  refine ⟨⟨?_, ?_, ?_, ?_, ?_⟩, ?_, ?_, ?_, ?_, ?_⟩
  · rw [hc, getUser_adjust2 s userId followerId _ _ u f hu hf]
    by_cases h : userId = followerId
    · have := huf h
      subst this
      simp [h, bumpFollowers, bumpFollowing]
    · simp [h, fun hcon => h (Eq.symm hcon), bumpFollowers]
  · rw [hc, getUser_adjust2 s userId followerId _ _ u f hu hf]
    by_cases h : followerId = userId
    · have := huf h.symm
      subst this
      simp [h, bumpFollowers, bumpFollowing]
    · simp [h, bumpFollowing]
  · intro id
    rw [hc, getUser_adjust2 s userId followerId _ _ u f hu hf]
    by_cases h1 : id = followerId <;> by_cases h2 : followerId = userId <;>
      by_cases h3 : id = userId <;>
      simp_all [clearCounts, bumpFollowers, bumpFollowing]
  · intro id hid1 hid2
    rw [hc, getUser_adjust2 s userId followerId _ _ u f hu hf]
    simp [hid1, hid2]
  · intro hne
    have hne2 : ¬ (followerId = userId) := fun hcon => hne hcon.symm
    rw [hc, getUser_adjust2 s userId followerId _ _ u f hu hf,
      getUser_adjust2 s userId followerId _ _ u f hu hf]
    simp [hne, hne2, bumpFollowers, bumpFollowing]
  · rw [hd, getUser_adjust2 s userId followerId _ _ u f hu hf]
    by_cases h : userId = followerId
    · have := huf h
      subst this
      simp [h, bumpFollowers, bumpFollowing, sub_eq_add_neg]
    · simp [h, fun hcon => h (Eq.symm hcon), bumpFollowers, sub_eq_add_neg]
  · rw [hd, getUser_adjust2 s userId followerId _ _ u f hu hf]
    by_cases h : followerId = userId
    · have := huf h.symm
      subst this
      simp [h, bumpFollowers, bumpFollowing, sub_eq_add_neg]
    · simp [h, bumpFollowing, sub_eq_add_neg]
  · intro id
    rw [hd, getUser_adjust2 s userId followerId _ _ u f hu hf]
    by_cases h1 : id = followerId <;> by_cases h2 : followerId = userId <;>
      by_cases h3 : id = userId <;>
      simp_all [clearCounts, bumpFollowers, bumpFollowing]
  · intro id hid1 hid2
    rw [hd, getUser_adjust2 s userId followerId _ _ u f hu hf]
    simp [hid1, hid2]
  · intro hne
    have hne2 : ¬ (followerId = userId) := fun hcon => hne hcon.symm
    rw [hd, getUser_adjust2 s userId followerId _ _ u f hu hf,
      getUser_adjust2 s userId followerId _ _ u f hu hf]
    simp [hne, hne2, bumpFollowers, bumpFollowing]

/-- C10: the push dispatch helper `sendPushNotification` never propagates an
error to its caller — for every message and every outcome of the outbound
gateway request (network failure, non-JSON response, error receipt) it
catches and logs the error and returns normally, so a push-gateway failure
cannot abort the enclosing handler. -/
theorem sendPushNotification_never_throws (msg : PushMsg)
    (outcome : GatewayOutcome) :
    ∃ log, sendPushNotification msg outcome = Except.ok log := by
  cases outcome <;> simp [sendPushNotification, attemptPush]

/-- C6: whenever the message-notification relay dispatches (the recipient is
resolved, has a push token and has notifications enabled), the notification
body is exactly the first 50 characters of the message text followed by an
ellipsis marker when the text is longer than 50 characters, and exactly the
full text otherwise. -/
theorem sendMessageNotification_truncation (chat : RelayChat)
    (chatId : String) (msg : MsgData) (userDoc : String → Option RelayUser)
    (recipientId : String) (recipient : RelayUser) (token : String)
    (hr : chat.participants.find? (fun id => id ≠ msg.senderId) =
      some recipientId)
    (hu : userDoc recipientId = some recipient)
    (ht : recipient.pushToken = some token)
    (hn : recipient.notifications = true) :
    (msg.text.length > 50 →
      (sendMessageNotification (some chat) chatId msg userDoc).map
        PushMsg.body = some (msg.text.take 50 ++ "..."))
    ∧ (msg.text.length ≤ 50 →
      (sendMessageNotification (some chat) chatId msg userDoc).map
        PushMsg.body = some msg.text) := by
  simp only [ne_eq, decide_not] at hr
  constructor
  · intro h
    simp [sendMessageNotification, hr, hu, ht, hn, h]
  · intro h
    simp [sendMessageNotification, hr, hu, ht, hn, Nat.not_lt.mpr h]

/-- A two-party chat used to exercise the relay. -/
def demoChat : RelayChat := { participants := ["alice", "bob"] }

/-- Recipient directory for the demo chat. -/
def demoUserDoc : String → Option RelayUser := fun id =>
  if id = "bob" then some { pushToken := some "tok", notifications := true }
  else none

/-- A 120-character message text. -/
def text120 : String := String.mk (List.replicate 120 'a')

/-- A 10-character message text. -/
def text10 : String := String.mk (List.replicate 10 'a')

/-- Witness for C6: a 120-character message is dispatched with the first 50
characters plus the ellipsis marker, a 10-character message verbatim. -/
theorem sendMessageNotification_truncation_witness :
    (sendMessageNotification (some demoChat) "c1"
        { senderId := "alice", senderName := some "Alice", text := text120 }
        demoUserDoc).map PushMsg.body = some (text120.take 50 ++ "...")
    ∧ (sendMessageNotification (some demoChat) "c1"
        { senderId := "alice", senderName := some "Alice", text := text10 }
        demoUserDoc).map PushMsg.body = some text10 := by
  constructor
  · exact (sendMessageNotification_truncation demoChat "c1"
      { senderId := "alice", senderName := some "Alice", text := text120 }
      demoUserDoc "bob" { pushToken := some "tok", notifications := true }
      "tok" (by decide) (by decide) rfl rfl).1 (by decide)
  · exact (sendMessageNotification_truncation demoChat "c1"
      { senderId := "alice", senderName := some "Alice", text := text10 }
      demoUserDoc "bob" { pushToken := some "tok", notifications := true }
      "tok" (by decide) (by decide) rfl rfl).2 (by decide)

/-- Shared run lemma: a failure-free `checkFollowerReward` invocation whose
read passes the guard performs the wallet update, the transaction append and
the conditional dispatch in sequence. -/
theorem checkFollowerReward_run (s : RewardState) (u : RewardUser)
    (hu : s.user = some u) (hth : u.followersCount ≥ thresholdOf s)
    (hcl : u.rewardClaimed = false) :
    checkFollowerReward none s =
      applyNotify u.pushToken (thresholdOf s)
        (applyTxnAdd (thresholdOf s) (applyWalletUpdate s)) := by
  simp [checkFollowerReward, hu, checkFollowerRewardWrites, hth, hcl]

/-- The user data both racing invocations observe: at the threshold, reward
not yet claimed. -/
def raceObserved : RewardUser :=
  { followersCount := 5000, rewardClaimed := false, walletBalance := 0
    pushToken := none }

/-- Initial store for the race: the observed user, no transactions, no
`settings/rewardRule` document (threshold defaults to 5000). -/
def raceState : RewardState :=
  { user := some raceObserved, transactions := [], settingsDoc := none
    outbox := [] }

/-- C1 fails on the code: `checkFollowerReward` reads the user document and
then writes without a transaction, so when two concurrent invocations both
observe `rewardClaimed = false` (both read `raceState` before either write
commits) and then both run their write phase, the wallet is credited twice
and two `reward` transaction records are created — the milestone reward is
not granted at most once. -/
theorem checkFollowerReward_concurrent_double_grant :
    raceState.user = some raceObserved
    ∧ thresholdOf raceState = 5000
    ∧ (checkFollowerRewardWrites raceObserved 5000 none
        (checkFollowerRewardWrites raceObserved 5000 none raceState)).user =
        some { followersCount := 5000, rewardClaimed := true
               walletBalance := 2000, pushToken := none }
    ∧ (checkFollowerRewardWrites raceObserved 5000 none
        (checkFollowerRewardWrites raceObserved 5000 none
          raceState)).transactions.map Txn.ttype = ["reward", "reward"] := by
  refine ⟨rfl, rfl, ?_, ?_⟩ <;> rfl

/-- C2 amended: a failure-free run of `checkFollowerReward` for an existing
user at or above the threshold with `rewardClaimed = false` credits
`wallet.balance` by 1000 and sets `rewardClaimed` in one update, then
appends exactly one `reward` transaction, then dispatches exactly one push
notification if and only if the user has a push token. -/
theorem checkFollowerReward_grants (s : RewardState) (u : RewardUser)
    (hu : s.user = some u) (hth : u.followersCount ≥ thresholdOf s)
    (hcl : u.rewardClaimed = false) :
    (checkFollowerReward none s).user =
      some { u with walletBalance := u.walletBalance + 1000
                    rewardClaimed := true }
    ∧ (checkFollowerReward none s).transactions =
        s.transactions ++ [rewardTxn (thresholdOf s)]
    ∧ (∀ token, u.pushToken = some token →
        (checkFollowerReward none s).outbox =
          s.outbox ++ [rewardPush token (thresholdOf s)])
    ∧ (u.pushToken = none →
        (checkFollowerReward none s).outbox = s.outbox) := by
  rw [checkFollowerReward_run s u hu hth hcl]
  refine ⟨?_, ?_, ?_, ?_⟩
  · cases htok : u.pushToken <;>
      simp [applyNotify, applyTxnAdd, applyWalletUpdate, hu, htok]
  · cases htok : u.pushToken <;>
      simp [applyNotify, applyTxnAdd, applyWalletUpdate, hu, htok]
  · intro token htok
    simp [applyNotify, applyTxnAdd, applyWalletUpdate, hu, htok]
  · intro htok
    simp [applyNotify, applyTxnAdd, applyWalletUpdate, hu, htok]

/-- The state of the C2 scenario: a user who was at 4999 followers and has
just gained one (`followersCount = 4999 + 1`), threshold 5000 configured,
push token registered. -/
def c2State : RewardState :=
  { user := some { followersCount := 4999 + 1, rewardClaimed := false
                   walletBalance := 0, pushToken := some "tok" }
    transactions := []
    settingsDoc := some { followerThreshold := 5000, rewardAmount := 1000 }
    outbox := [] }

/-- Witness for C2: the user at `4999 + 1` followers with threshold 5000
receives the credit, the flag, the single transaction and the single push
message. -/
theorem checkFollowerReward_grants_witness :
    (checkFollowerReward none c2State).user =
      some { followersCount := 4999 + 1, rewardClaimed := true
             walletBalance := 0 + 1000, pushToken := some "tok" }
    ∧ (checkFollowerReward none c2State).transactions = [rewardTxn 5000]
    ∧ (checkFollowerReward none c2State).outbox = [rewardPush "tok" 5000] := by
  have h := checkFollowerReward_grants c2State
    { followersCount := 4999 + 1, rewardClaimed := false, walletBalance := 0
      pushToken := some "tok" } rfl (by decide) rfl
  exact ⟨h.1, h.2.1, h.2.2.1 "tok" rfl⟩

/-- Counterexample to C2 as stated: the grant is sequential, not atomic.  If
the run raises after the wallet update but before the transaction append
(`RewardFail.afterWallet`), the handler has set `rewardClaimed` and credited
the balance yet created no Transaction record and dispatched nothing, so the
four effects do not occur as one atomic step. -/
theorem checkFollowerReward_not_atomic :
    (checkFollowerReward (some RewardFail.afterWallet) c2State).user =
      some { followersCount := 4999 + 1, rewardClaimed := true
             walletBalance := 0 + 1000, pushToken := some "tok" }
    ∧ (checkFollowerReward (some RewardFail.afterWallet)
        c2State).transactions = []
    ∧ (checkFollowerReward (some RewardFail.afterWallet) c2State).outbox
        = [] := by
  refine ⟨?_, ?_, ?_⟩ <;> rfl

/-- Configuration for the C5 counterexample: `rewardAmount` set to 500. -/
def c5State : RewardState :=
  { user := some { followersCount := 5000, rewardClaimed := false
                   walletBalance := 0, pushToken := none }
    transactions := []
    settingsDoc := some { followerThreshold := 5000, rewardAmount := 500 }
    outbox := [] }

/-- Counterexample to C5: with `settings/rewardRule.rewardAmount = 500` the
handler still credits and records 1000 — it does not read the configured
amount. -/
theorem checkFollowerReward_ignores_configured_amount :
    c5State.settingsDoc =
      some { followerThreshold := 5000, rewardAmount := 500 }
    ∧ (checkFollowerReward none c5State).user.map RewardUser.walletBalance =
        some 1000
    ∧ (checkFollowerReward none c5State).transactions.map Txn.amount = [1000]
    ∧ ¬ ((checkFollowerReward none c5State).transactions.map Txn.amount
          = [500]) := by
  refine ⟨rfl, rfl, rfl, ?_⟩
  decide

/-- C5 amended: the credited and recorded amount is the hard-coded constant
1000, for every value the `settings/rewardRule` record may hold; only
`followerThreshold` is read from the configuration. -/
theorem checkFollowerReward_amount_constant (s : RewardState) (u : RewardUser)
    (hu : s.user = some u) (hth : u.followersCount ≥ thresholdOf s)
    (hcl : u.rewardClaimed = false) :
    (checkFollowerReward none s).user.map RewardUser.walletBalance =
      some (u.walletBalance + 1000)
    ∧ (checkFollowerReward none s).transactions.map Txn.amount =
        s.transactions.map Txn.amount ++ [1000] := by
  rw [checkFollowerReward_run s u hu hth hcl]
  constructor <;> cases htok : u.pushToken <;>
    simp [applyNotify, applyTxnAdd, applyWalletUpdate, hu, htok, rewardTxn]

/-- Witness for C5 (amended): at a configuration with `rewardAmount = 500`
the recorded amount is still 1000. -/
theorem checkFollowerReward_amount_constant_witness :
    (checkFollowerReward none c5State).user.map RewardUser.walletBalance =
      some (0 + 1000)
    ∧ (checkFollowerReward none c5State).transactions.map Txn.amount =
        List.map Txn.amount [] ++ [1000] :=
  checkFollowerReward_amount_constant c5State
    { followersCount := 5000, rewardClaimed := false, walletBalance := 0
      pushToken := none } rfl (by decide) rfl

/-- The pair (A,B) before any follow: no edges, zero counters. -/
def pairStart : PairWorld :=
  { followingAB := false, followersBA := false, followingCountA := 0
    followersCountB := 0 }

/-- C4 fails on the code: a single follow operation (the client
`handleFollow` flow together with the triggered reconciler, each logical
event processed once) double-counts, because `handleFollow` increments both
counters itself and the `updateFollowerCounts` trigger increments them
again.  From the empty pair state one follow leaves both counters at 2 while
exactly one edge document exists on each side, so the counters do not equal
the edge cardinalities and the reconciler is not the only writer. -/
theorem handleFollow_double_count :
    (handleFollow pairStart).followersCountB = 2
    ∧ (handleFollow pairStart).followingCountA = 2
    ∧ followersEdges (handleFollow pairStart) = 1
    ∧ followingEdges (handleFollow pairStart) = 1
    ∧ (handleFollow pairStart).followersCountB ≠
        followersEdges (handleFollow pairStart)
    ∧ (handleFollow pairStart).followingCountA ≠
        followingEdges (handleFollow pairStart) := by
  refine ⟨rfl, rfl, rfl, rfl, ?_, ?_⟩ <;> decide

/-! ## Purge lemmas -/

theorem purgeChat_cid (uid : String) (a c' : ChatRec)
    (h : purgeChat uid a = some c') : c'.cid = a.cid := by
  unfold purgeChat at h
  by_cases h1 : uid ∈ a.participants
  · by_cases h2 : a.participants.length = 1
    · simp [h1, h2] at h
    · simp [h1, h2] at h
      rw [← h]
  · simp [h1] at h
    rw [← h]

theorem getUser_filter_ne (l : UserStore) (uid v : String) (hv : v ≠ uid) :
    getUser (l.filter (fun p => p.1 != uid)) v = getUser l v := by
  induction l with
  | nil => rfl
  | cons p t ih =>
    by_cases h1 : p.1 = v
    · have hkeep : (v != uid) = true := by simp [hv]
      simp [List.filter, getUser, h1, hkeep]
    · by_cases h2 : (p.1 != uid) = true
      · simp [List.filter, h2, getUser, h1, ih]
      · simp [List.filter, h2, getUser, h1, ih]

/-- C8: when `deleteUserAccount` completes successfully for `uid`, the
profile document, all posts and comments owned by `uid`, all of `uid`'s own
`following`/`followers` edge documents and all of `uid`'s transactions are
gone, no storage object under `users/{uid}/` remains, and `uid`'s
credential is deleted. -/
theorem deleteUserAccount_purges (d : Option String) (uid : String)
    (fail : Option PurgeFail) (w w' : World)
    (h : deleteUserAccount d (some uid) fail w = (w', CallResult.success)) :
    (∀ p ∈ w'.users, p.1 ≠ uid)
    ∧ (∀ p ∈ w'.posts, p.userId ≠ uid)
    ∧ (∀ c ∈ w'.comments, c.userId ≠ uid)
    ∧ (∀ e ∈ w'.followingEdges, e.1 ≠ uid)
    ∧ (∀ e ∈ w'.followerEdges, e.1 ≠ uid)
    ∧ (∀ t ∈ w'.transactions, t.1 ≠ uid)
    ∧ (∀ o ∈ w'.storageObjects,
        ("users/" ++ uid ++ "/").isPrefixOf o = false)
    ∧ uid ∉ w'.authUsers := by
  cases fail with
  | some fp => cases fp <;> simp [deleteUserAccount] at h
  | none =>
    simp only [deleteUserAccount, Prod.mk.injEq] at h
    have hw : w' = purgeAuth uid (purgeStorage uid (purgeDocs uid w)) :=
      h.1.symm
    subst hw
    refine ⟨?_, ?_, ?_, ?_, ?_, ?_, ?_, ?_⟩ <;>
      simp [purgeAuth, purgeStorage, purgeDocs, List.mem_filter]

/-- C7: during a successful account purge, every chat the purged user
participates in is deleted entirely when the user is the sole participant,
and otherwise survives with the user removed from the participant set and
its message history intact. -/
theorem deleteUserAccount_chat_handling (d : Option String) (uid : String)
    (fail : Option PurgeFail) (w w' : World)
    (h : deleteUserAccount d (some uid) fail w = (w', CallResult.success))
    (hnodup : (w.chats.map ChatRec.cid).Nodup) :
    (∀ c ∈ w.chats, c.participants = [uid] →
      ∀ c' ∈ w'.chats, c'.cid ≠ c.cid)
    ∧ (∀ c ∈ w.chats, uid ∈ c.participants → c.participants ≠ [uid] →
        ∃ c' ∈ w'.chats, c'.cid = c.cid
          ∧ c'.participants = c.participants.filter (fun x => x != uid)
          ∧ c'.messages = c.messages) := by
  cases fail with
  | some fp => cases fp <;> simp [deleteUserAccount] at h
  | none =>
    simp only [deleteUserAccount, Prod.mk.injEq] at h
    have hw : w' = purgeAuth uid (purgeStorage uid (purgeDocs uid w)) :=
      h.1.symm
    subst hw
    have hchats : (purgeAuth uid (purgeStorage uid (purgeDocs uid w))).chats
        = w.chats.filterMap (purgeChat uid) := rfl
    constructor
    · intro c hc hsole c' hc' hcid
      rw [hchats] at hc'
      rcases List.mem_filterMap.mp hc' with ⟨a, ha, hpa⟩
      have hacid : c'.cid = a.cid := purgeChat_cid uid a c' hpa
      have hac : a = c := by
        refine List.inj_on_of_nodup_map hnodup ha hc ?_
        rw [← hacid, hcid]
      subst hac
      simp [purgeChat, hsole] at hpa
    · intro c hc hmem hne
      have hlen : c.participants.length ≠ 1 := by
        intro hl
        rcases List.length_eq_one.mp hl with ⟨x, hx⟩
        rw [hx] at hmem
        simp at hmem
        exact hne (by rw [hx, hmem])
      refine ⟨{ c with
          participants := c.participants.filter (fun x => x != uid) },
        ?_, rfl, rfl, rfl⟩
      rw [hchats]
      exact List.mem_filterMap.mpr ⟨c, hc, by simp [purgeChat, hmem, hlen]⟩

/-- C9: an unauthenticated call raises `unauthenticated` before any read or
write and changes nothing; an authenticated call ignores the request data
entirely (no caller can name a different target), purges exactly the
caller's own uid and leaves every other user's profile document and
credential in place; any internal failure surfaces as the generic
`internal` error. -/
theorem deleteUserAccount_auth_check (d d' : Option String) (uid : String)
    (fail : Option PurgeFail) (fp : PurgeFail) (w : World) :
    deleteUserAccount d none fail w = (w, CallResult.error "unauthenticated")
    ∧ deleteUserAccount d (some uid) fail w =
        deleteUserAccount d' (some uid) fail w
    ∧ (deleteUserAccount d (some uid) (some fp) w).2 =
        CallResult.error "internal"
    ∧ deleteUserAccount d (some uid) none w =
        (purgeAuth uid (purgeStorage uid (purgeDocs uid w)),
          CallResult.success)
    ∧ (∀ v, v ≠ uid →
        getUser (deleteUserAccount d (some uid) fail w).1.users v =
          getUser w.users v
        ∧ ((v ∈ (deleteUserAccount d (some uid) fail w).1.authUsers) ↔
            v ∈ w.authUsers)) := by
  refine ⟨rfl, rfl, ?_, rfl, ?_⟩
  · cases fp <;> rfl
  · intro v hv
    constructor
    · cases fail with
      | none => exact getUser_filter_ne w.users uid v hv
      | some fp2 =>
        cases fp2 with
        | beforeCommit => rfl
        | storage => exact getUser_filter_ne w.users uid v hv
        | authDelete => exact getUser_filter_ne w.users uid v hv
    · cases fail with
      | none =>
        simp [deleteUserAccount, purgeAuth, purgeStorage, purgeDocs,
          List.mem_filter, hv]
      | some fp2 =>
        cases fp2 <;>
          simp [deleteUserAccount, purgeAuth, purgeStorage, purgeDocs,
            List.mem_filter, hv]

/-! ## Concrete worlds for the witnesses -/

/-- A freshly signed-up user document. -/
def demoUser (name : String) : UserDoc :=
  { username := name, bio := "", followersCount := 0, followingCount := 0
    postsCount := 0, walletBalance := 0, rewardClaimed := false
    pushToken := none, notifications := true }

/-- A two-user store for the reconciler witness. -/
def followDemoStore : UserStore := [("a", demoUser "a"), ("b", demoUser "b")]

/-- Witness for C3: in the two-user store, the creation event for edge
`followers/b/a` increments `b`'s followers and `a`'s following each by one,
and the deletion event decrements `b`'s followers by one. -/
theorem updateFollowerCounts_spec_witness :
    (getUser (updateFollowerCounts "b" "a" false true followDemoStore)
        "b").map UserDoc.followersCount =
      some ((demoUser "b").followersCount + 1)
    ∧ (getUser (updateFollowerCounts "b" "a" false true followDemoStore)
        "a").map UserDoc.followingCount =
      some ((demoUser "a").followingCount + 1)
    ∧ (getUser (updateFollowerCounts "b" "a" true false followDemoStore)
        "b").map UserDoc.followersCount =
      some ((demoUser "b").followersCount - 1) := by
  have h := updateFollowerCounts_spec "b" "a" followDemoStore (demoUser "b")
    (demoUser "a") rfl rfl
  exact ⟨h.1.1, h.1.2.1, h.2.1⟩

/-- A world with two users, their content, two chats (one sole-participant,
one shared), edges, a transaction, storage objects and credentials. -/
def demoWorld : World :=
  { users := [("u1", demoUser "u1"), ("u2", demoUser "u2")]
    posts := [{ pid := "p1", userId := "u1" }, { pid := "p2", userId := "u2" }]
    comments := [{ cdid := "k1", postId := "p2", userId := "u1" }]
    chats := [{ cid := "c", participants := ["u1"]
                messages := [{ senderId := "u1", text := "hi" }] },
              { cid := "d", participants := ["u1", "u2"]
                messages := [{ senderId := "u2", text := "yo" }] }]
    followingEdges := [("u1", "u2"), ("u2", "u1")]
    followerEdges := [("u1", "u2"), ("u2", "u1")]
    transactions := [("u1", rewardTxn 5000)]
    storageObjects := ["users/u1/avatar.png", "users/u2/avatar.png"]
    authUsers := ["u1", "u2"] }

/-- Witness for C8: purging `u1` from the demo world leaves no document,
edge, transaction, storage object or credential of `u1`. -/
theorem deleteUserAccount_purges_witness :
    (∀ p ∈ (deleteUserAccount none (some "u1") none demoWorld).1.users,
      p.1 ≠ "u1")
    ∧ (∀ p ∈ (deleteUserAccount none (some "u1") none demoWorld).1.posts,
        p.userId ≠ "u1")
    ∧ (∀ c ∈ (deleteUserAccount none (some "u1") none demoWorld).1.comments,
        c.userId ≠ "u1")
    ∧ (∀ e ∈ (deleteUserAccount none (some "u1") none
        demoWorld).1.followingEdges, e.1 ≠ "u1")
    ∧ (∀ e ∈ (deleteUserAccount none (some "u1") none
        demoWorld).1.followerEdges, e.1 ≠ "u1")
    ∧ (∀ t ∈ (deleteUserAccount none (some "u1") none
        demoWorld).1.transactions, t.1 ≠ "u1")
    ∧ (∀ o ∈ (deleteUserAccount none (some "u1") none
        demoWorld).1.storageObjects,
        ("users/" ++ "u1" ++ "/").isPrefixOf o = false)
    ∧ "u1" ∉ (deleteUserAccount none (some "u1") none
        demoWorld).1.authUsers :=
  deleteUserAccount_purges none "u1" none demoWorld
    (deleteUserAccount none (some "u1") none demoWorld).1 rfl

/-- Witness for C7: in the demo world, purging `u1` deletes the
sole-participant chat `c` and keeps chat `d` with `u1` removed and its
message history intact. -/
theorem deleteUserAccount_chat_handling_witness :
    (∀ c ∈ demoWorld.chats, c.participants = ["u1"] →
      ∀ c' ∈ (deleteUserAccount none (some "u1") none demoWorld).1.chats,
        c'.cid ≠ c.cid)
    ∧ (∀ c ∈ demoWorld.chats, "u1" ∈ c.participants →
        c.participants ≠ ["u1"] →
        ∃ c' ∈ (deleteUserAccount none (some "u1") none demoWorld).1.chats,
          c'.cid = c.cid
          ∧ c'.participants = c.participants.filter (fun x => x != "u1")
          ∧ c'.messages = c.messages) :=
  deleteUserAccount_chat_handling none "u1" none demoWorld
    (deleteUserAccount none (some "u1") none demoWorld).1 rfl (by decide)

/-- Witness for C9: an unauthenticated call on the demo world fails with
`unauthenticated` and changes nothing, and a purge of `u1` with an injected
storage failure leaves `u2`'s profile lookup unchanged. -/
theorem deleteUserAccount_auth_check_witness :
    deleteUserAccount none none (some PurgeFail.storage) demoWorld =
      (demoWorld, CallResult.error "unauthenticated")
    ∧ getUser (deleteUserAccount none (some "u1") (some PurgeFail.storage)
        demoWorld).1.users "u2" = getUser demoWorld.users "u2" := by
  have h := deleteUserAccount_auth_check none (some "u2") "u1"
    (some PurgeFail.storage) PurgeFail.storage demoWorld
  exact ⟨h.1, (h.2.2.2.2 "u2" (by decide)).1⟩

end RiseHood
